import Mathlib

/-!
Verification of the jwt-pizza-service authentication/authorization core.

The definitions below are a shallow embedding of the three source files
(`authRouter.js`, `franchiseRouter.js`, `userRouter.js`).  The database
module (`database/database.js`), the `jsonwebtoken` codec and the
`endpointHelper` are not part of the provided sources; they are modelled
from the specification (each such definition carries a doc comment starting
with `Modelled from the spec:`).  JavaScript `null`/`undefined` are both
modelled as `none`; a thrown exception that is not a `StatusCodeError`
surfaces as the `Resp.thrown` response.
-/

/-- Role enumeration. In the source, roles are the strings produced by the
database module (`Role.Diner`, `Role.Franchisee`, `Role.Admin`). -/
inductive Role where
  | diner
  | franchisee
  | admin
deriving DecidableEq

/-- The identity payload carried by a token and attached to a request as
`req.user` (id, name, email, roles). In JS each role is wrapped as an
object `\x7b role \x7d`; here the list of roles is kept directly. -/
structure User where
  id : Nat
  name : String
  email : String
  roles : List Role
deriving DecidableEq

/-- The `isRole` closure attached to `req.user` in `setAuthUser`:
`(role) => !!req.user.roles.find((r) => r.role === role)`. -/
def User.isRole (u : User) (r : Role) : Bool :=
  u.roles.any (fun x => x == r)

/- ## Token codec, modelled from the spec (§4.1)

`jsonwebtoken` is an external dependency.  The spec describes the codec as
a stateless signed serialization of the identity with `decode ∘ issue = id`
and decode failure on any string that was not produced by `issue`.  We
realize it with an explicit, injective, length-prefixed (unary) character
encoding; the leading `JW` characters stand for the signature. -/

/-- Modelled from the spec: unary encoding of a natural number used by the
token serialization. -/
def encNat (n : Nat) : List Char :=
  List.replicate n '1' ++ [':']

/-- Modelled from the spec: length-prefixed encoding of a string field of
the token payload. -/
def encStrC (s : String) : List Char :=
  List.replicate s.data.length '1' ++ ':' :: s.data

/-- Modelled from the spec: one-character encoding of a role claim. -/
def encRole : Role → Char
  | .diner => 'd'
  | .franchisee => 'f'
  | .admin => 'a'

/-- Modelled from the spec: encoding of the role list of the payload. -/
def encRoles (rs : List Role) : List Char :=
  List.replicate rs.length '1' ++ ':' :: rs.map encRole

/-- Modelled from the spec: serialization of the whole identity payload. -/
def encUser (u : User) : List Char :=
  encNat u.id ++ encStrC u.name ++ encStrC u.email ++ encRoles u.roles

/-- Modelled from the spec: `jwt.sign(user, config.jwtSecret)` — signs the
identity payload with the process-wide secret (the `JW` tag stands for the
signature). Deterministic and stateless. -/
def jwtSign (u : User) : String :=
  String.mk ('J' :: 'W' :: encUser u)

/-- Modelled from the spec: count the leading `1` characters of a unary
length prefix. -/
def countOnes : List Char → Nat × List Char
  | [] => (0, [])
  | c :: rest =>
    if c = '1' then
      let (n, r) := countOnes rest
      (n + 1, r)
    else (0, c :: rest)

/-- Modelled from the spec: parse a unary natural-number prefix. -/
def decNat (l : List Char) : Option (Nat × List Char) :=
  match countOnes l with
  | (n, ':' :: rest) => some (n, rest)
  | _ => none

/-- Modelled from the spec: parse a length-prefixed string field. -/
def decStrC (l : List Char) : Option (String × List Char) :=
  match decNat l with
  | some (n, rest) =>
    if n ≤ rest.length then some (String.mk (rest.take n), rest.drop n)
    else none
  | none => none

/-- Modelled from the spec: parse a single role character. -/
def decRole : Char → Option Role
  | 'd' => some .diner
  | 'f' => some .franchisee
  | 'a' => some .admin
  | _ => none

/-- Modelled from the spec: parse a list of role characters. -/
def decRoleList : List Char → Option (List Role)
  | [] => some []
  | c :: rest =>
    match decRole c, decRoleList rest with
    | some r, some rs => some (r :: rs)
    | _, _ => none

/-- Modelled from the spec: parse the role list of the payload. -/
def decRoles (l : List Char) : Option (List Role × List Char) :=
  match decNat l with
  | some (n, rest) =>
    if n ≤ rest.length then
      match decRoleList (rest.take n) with
      | some rs => some (rs, rest.drop n)
      | none => none
    else none
  | none => none

/-- Modelled from the spec: deserialize an identity payload. -/
def decUser (l : List Char) : Option (User × List Char) :=
  match decNat l with
  | some (i, r1) =>
    match decStrC r1 with
    | some (name, r2) =>
      match decStrC r2 with
      | some (email, r3) =>
        match decRoles r3 with
        | some (roles, r4) => some (⟨i, name, email, roles⟩, r4)
        | none => none
      | none => none
    | none => none
  | none => none

/-- Modelled from the spec: `jwt.verify(token, config.jwtSecret)` — checks
the signature and deserializes the payload; `none` models the exception
thrown on a tampered or malformed token. Never consults external state. -/
def jwtVerify (s : String) : Option User :=
  match s.data with
  | 'J' :: 'W' :: rest =>
    match decUser rest with
    | some (u, []) => some u
    | _ => none
  | _ => none

/- ## Credential / resource store, modelled from the spec (§2, §6)

`database/database.js` is not among the provided sources; its operations
are modelled from the Credential Store interface of the spec
(`createUser`, `findUserByCredentials -> User|null`, `updateUser`,
`recordSession`, `isSessionActive`, `revokeSession`) plus the franchise
and store CRUD used by the routers. -/

/-- A stored user row: the identity plus the stored password. -/
structure UserRec where
  user : User
  password : String
deriving DecidableEq

/-- A pizza store belonging to a franchise. -/
structure PizzaStore where
  id : Nat
  name : String
deriving DecidableEq

/-- A franchise, with the set of admin identities that own it. -/
structure Franchise where
  id : Nat
  name : String
  admins : List User
  stores : List PizzaStore
deriving DecidableEq

/-- The whole persistent state: user rows, active session records
(token, userId) and franchises. -/
structure DBState where
  users : List UserRec
  sessions : List (String × Nat)
  franchises : List Franchise
deriving DecidableEq

/-- Modelled from the spec: `DB.isLoggedIn(token)` = `isSessionActive` —
is there an active Session Record for this token string. -/
def isLoggedIn (st : DBState) (token : String) : Bool :=
  st.sessions.any (fun s => s.1 == token)

/-- Modelled from the spec: `DB.loginUser(userId, token)` = `recordSession`
— create an active Session Record. -/
def loginUser (st : DBState) (userId : Nat) (token : String) : DBState :=
  { st with sessions := (token, userId) :: st.sessions }

/-- Modelled from the spec: `DB.logoutUser(token)` = `revokeSession` —
destroy the Session Record of this token (a no-op when absent). -/
def logoutUser (st : DBState) (token : String) : DBState :=
  { st with sessions := st.sessions.filter (fun s => s.1 != token) }

/-- Modelled from the spec: `DB.getUser(email, password)` =
`findUserByCredentials(email, password) -> User|null`. -/
def getUser (st : DBState) (email password : String) : Option User :=
  (st.users.find? (fun r => r.user.email == email && r.password == password)).map (·.user)

/-- Modelled from the spec: `DB.updateUser(userId, name, email, password)`
— persist the changed fields of the user row and return the updated user
(`none` when no such user exists). Session records are untouched. -/
def dbUpdateUser (st : DBState) (userId : Nat) (name email password : String) :
    DBState × Option User :=
  match st.users.find? (fun r => r.user.id == userId) with
  | some r =>
    let u' : User := { r.user with name := name, email := email }
    ({ st with
        users := st.users.map (fun q =>
          if q.user.id == userId then { user := u', password := password } else q) },
      some u')
  | none => (st, none)

/-- Modelled from the spec: `DB.getFranchise(\x7b id \x7d)` — look a franchise
up by id. -/
def getFranchise (st : DBState) (franchiseId : Nat) : Option Franchise :=
  st.franchises.find? (fun f => f.id == franchiseId)

/-- Modelled from the spec: `DB.getUserFranchises(userId)` — the franchises
administered by the given user. -/
def getUserFranchises (st : DBState) (userId : Nat) : List Franchise :=
  st.franchises.filter (fun f => f.admins.any (fun a => a.id == userId))

/-- Modelled from the spec: `DB.createFranchise(franchise)` — persist a new
franchise and return it. -/
def createFranchise (st : DBState) (f : Franchise) : DBState × Franchise :=
  ({ st with franchises := st.franchises ++ [f] }, f)

/-- Modelled from the spec: `DB.deleteFranchise(franchiseId)` — remove the
franchise with this id. -/
def deleteFranchise (st : DBState) (franchiseId : Nat) : DBState :=
  { st with franchises := st.franchises.filter (fun f => f.id != franchiseId) }

/-- Modelled from the spec: `DB.createStore(franchiseId, store)` — append a
store to the franchise and return it. -/
def createStore (st : DBState) (franchiseId : Nat) (s : PizzaStore) : DBState × PizzaStore :=
  ({ st with
      franchises := st.franchises.map (fun f =>
        if f.id == franchiseId then { f with stores := f.stores ++ [s] } else f) },
    s)

/-- Modelled from the spec: `DB.deleteStore(franchiseId, storeId)` — remove
the store from the franchise. -/
def deleteStore (st : DBState) (franchiseId storeId : Nat) : DBState :=
  { st with
      franchises := st.franchises.map (fun f =>
        if f.id == franchiseId then
          { f with stores := f.stores.filter (fun s => s.id != storeId) }
        else f) }

/- ## authRouter.js -/

/-- JavaScript `String.prototype.split(c)` specialised to a one-character
separator: splits at every occurrence, keeping empty components. -/
def splitChar (c : Char) : List Char → List (List Char)
  | [] => [[]]
  | a :: rest =>
    if a = c then [] :: splitChar c rest
    else
      match splitChar c rest with
      | w :: ws => (a :: w) :: ws
      | [] => [[a]]

/-- `readAuthToken(req)` from `authRouter.js`: if the `Authorization`
header is truthy, return `authHeader.split(' ')[1]` (which is `undefined`,
here `none`, when the header has no second component); otherwise `null`.
Note the scheme word is never inspected. -/
def readAuthToken (authHeader : Option String) : Option String :=
  match authHeader with
  | some h => if h = "" then none else ((splitChar ' ' h.data).map String.mk)[1]?
  | none => none

/-- `setAuthUser(req, res, next)` from `authRouter.js`: extract the token;
when truthy, check `DB.isLoggedIn(token)` and then `jwt.verify`; a verify
exception is caught and leaves `req.user = null`. The result is the
`req.user` attached to the request (`none` for anonymous). -/
def setAuthUser (st : DBState) (authHeader : Option String) : Option User :=
  match readAuthToken authHeader with
  | some token =>
    if token = "" then none
    else if isLoggedIn st token then jwtVerify token else none
  | none => none

/-- Responses produced by the routers. `msg s m` is `res.status(s)` with a
JSON message body, the other constructors carry the JSON payloads of the
respective success responses, and `thrown` models an exception that is not
a `StatusCodeError` escaping the handler. -/
inductive Resp where
  | msg (status : Nat) (message : String)
  | userToken (status : Nat) (user : User) (token : String)
  | franchiseList (status : Nat) (fs : List Franchise)
  | franchiseBody (status : Nat) (f : Franchise)
  | storeBody (status : Nat) (s : PizzaStore)
  | thrown
deriving DecidableEq

/-- `setAuth(user)` from `authRouter.js`: `jwt.sign(user, secret)` followed
by `DB.loginUser(user.id, token)`. `jwt.sign` throws on a null payload
(per the spec, `issue` fails on malformed identity input), before any
session is recorded; that failure is modelled by the `none` token. -/
def setAuth (st : DBState) (user : Option User) : DBState × Option String :=
  match user with
  | none => (st, none)
  | some u =>
    let token := jwtSign u
    (loginUser st u.id token, some token)

/-- `clearAuth(req)` from `authRouter.js`: read the token and, when truthy,
`DB.logoutUser(token)`. -/
def clearAuth (st : DBState) (authHeader : Option String) : DBState :=
  match readAuthToken authHeader with
  | some token => if token = "" then st else logoutUser st token
  | none => st

/-- `authRouter.put('/')` (login): `DB.getUser(email, password)` then
`setAuth(user)`; with a null user the sign throws (`Resp.thrown`); on a
match the user and token are returned. -/
def loginRoute (st : DBState) (email password : String) : DBState × Resp :=
  let user := getUser st email password
  let (st1, auth) := setAuth st user
  match user, auth with
  | some u, some token => (st1, .userToken 200 u token)
  | _, _ => (st1, .thrown)

/-- `authRouter.delete('/')` (logout): the request pipeline is
`setAuthUser` (app-level), then `authenticateToken` (401 when `req.user`
is falsy), then `clearAuth` and the success message. -/
def logoutRoute (st : DBState) (authHeader : Option String) : DBState × Resp :=
  match setAuthUser st authHeader with
  | none => (st, .msg 401 "unauthorized")
  | some _ => (clearAuth st authHeader, .msg 200 "logout successful")

/- ## userRouter.js -/

/-- `userRouter.put('/:userId')` (update user): after `authenticateToken`,
reject with 403 unless `user.id === userId` or the user has the Admin
role; otherwise `DB.updateUser` then `setAuth(updatedUser)`. The `user`
argument is the `req.user` produced by `setAuthUser`. -/
def updateUserRoute (st : DBState) (user : Option User) (userId : Nat)
    (name email password : String) : DBState × Resp :=
  match user with
  | none => (st, .msg 401 "unauthorized")
  | some u =>
    if u.id != userId && !u.isRole Role.admin then (st, .msg 403 "unauthorized")
    else
      let (st1, updated) := dbUpdateUser st userId name email password
      let (st2, auth) := setAuth st1 updated
      match updated, auth with
      | some v, some token => (st2, .userToken 200 v token)
      | _, _ => (st2, .thrown)

/- ## franchiseRouter.js -/

/-- `franchiseRouter.get('/:userId')` (list a user's franchises): after
`authenticateToken`, the result starts as `[]` and is filled from
`DB.getUserFranchises(userId)` only when `req.user.id === userId` or the
user is an Admin; the response is always a 200 JSON list. -/
def listUserFranchisesRoute (st : DBState) (user : Option User) (userId : Nat) :
    DBState × Resp :=
  match user with
  | none => (st, .msg 401 "unauthorized")
  | some u =>
    if u.id == userId || u.isRole Role.admin then
      (st, .franchiseList 200 (getUserFranchises st userId))
    else (st, .franchiseList 200 [])

/-- `franchiseRouter.post('/')` (create franchise): after
`authenticateToken`, throw 403 unless the user is an Admin; otherwise
`DB.createFranchise(req.body)`. -/
def createFranchiseRoute (st : DBState) (user : Option User) (body : Franchise) :
    DBState × Resp :=
  match user with
  | none => (st, .msg 401 "unauthorized")
  | some u =>
    if !u.isRole Role.admin then (st, .msg 403 "unable to create a franchise")
    else
      let (st1, created) := createFranchise st body
      (st1, .franchiseBody 200 created)

/-- `franchiseRouter.delete('/:franchiseId')` (delete franchise): the
route chain contains NO `authenticateToken` and the handler never reads
`req.user`; it deletes unconditionally (even though `franchiseRouter.docs`
marks this endpoint `requiresAuth: true`). -/
def deleteFranchiseRoute (st : DBState) (_user : Option User) (franchiseId : Nat) :
    DBState × Resp :=
  (deleteFranchise st franchiseId, .msg 200 "franchise deleted")

/-- `franchiseRouter.post('/:franchiseId/store')` (create store): after
`authenticateToken`, fetch the franchise; throw 403 when it is null or
when the user is neither an Admin nor one of the franchise admins;
otherwise `DB.createStore(franchise.id, req.body)`. -/
def createStoreRoute (st : DBState) (user : Option User) (franchiseId : Nat)
    (body : PizzaStore) : DBState × Resp :=
  match user with
  | none => (st, .msg 401 "unauthorized")
  | some u =>
    match getFranchise st franchiseId with
    | none => (st, .msg 403 "unable to create a store")
    | some f =>
      if !u.isRole Role.admin && !(f.admins.any (fun a => a.id == u.id)) then
        (st, .msg 403 "unable to create a store")
      else
        let (st1, created) := createStore st f.id body
        (st1, .storeBody 200 created)

/-- `franchiseRouter.delete('/:franchiseId/store/:storeId')` (delete
store): after `authenticateToken`, fetch the franchise; throw 403 when it
is null or when the user is neither an Admin nor one of the franchise
admins; otherwise `DB.deleteStore(franchiseId, storeId)`. -/
def deleteStoreRoute (st : DBState) (user : Option User) (franchiseId storeId : Nat) :
    DBState × Resp :=
  match user with
  | none => (st, .msg 401 "unauthorized")
  | some u =>
    match getFranchise st franchiseId with
    | none => (st, .msg 403 "unable to delete a store")
    | some f =>
      if !u.isRole Role.admin && !(f.admins.any (fun a => a.id == u.id)) then
        (st, .msg 403 "unable to delete a store")
      else (deleteStore st franchiseId storeId, .msg 200 "store deleted")

/- ## Round-trip lemmas for the token codec -/

theorem countOnes_replicate (n : Nat) (t : List Char) :
    countOnes (List.replicate n '1' ++ ':' :: t) = (n, ':' :: t) := by
  induction n with
  | zero => simp [countOnes]
  | succ n ih => simp [List.replicate_succ, countOnes, ih]

theorem decNat_replicate (n : Nat) (t : List Char) :
    decNat (List.replicate n '1' ++ ':' :: t) = some (n, t) := by
  simp [decNat, countOnes_replicate]

theorem decNat_enc (n : Nat) (t : List Char) :
    decNat (encNat n ++ t) = some (n, t) := by
  have h : encNat n ++ t = List.replicate n '1' ++ ':' :: t := by
    simp [encNat]
  rw [h, decNat_replicate]

theorem decStrC_enc (s : String) (t : List Char) :
    decStrC (encStrC s ++ t) = some (s, t) := by
  have h : encStrC s ++ t = List.replicate s.data.length '1' ++ ':' :: (s.data ++ t) := by
    simp [encStrC]
  have hle : s.data.length ≤ (s.data ++ t).length := by
    simp [List.length_append]
  simp [decStrC, h, decNat_replicate, hle, List.take_left, List.drop_left]

theorem decRoleList_enc (rs : List Role) :
    decRoleList (rs.map encRole) = some rs := by
  induction rs with
  | nil => rfl
  | cons r rest ih => cases r <;> simp [decRoleList, decRole, encRole, ih]

theorem decRoles_enc (rs : List Role) (t : List Char) :
    decRoles (encRoles rs ++ t) = some (rs, t) := by
  have h : encRoles rs ++ t = List.replicate rs.length '1' ++ ':' :: (rs.map encRole ++ t) := by
    simp [encRoles]
  have hlen : rs.length = (rs.map encRole).length := (List.length_map _ _).symm
  rw [decRoles, h, decNat_replicate, hlen]
  simp [List.take_left, List.drop_left, decRoleList_enc]

theorem decUser_enc (u : User) (t : List Char) :
    decUser (encUser u ++ t) = some (u, t) := by
  have h : encUser u ++ t =
      encNat u.id ++ (encStrC u.name ++ (encStrC u.email ++ (encRoles u.roles ++ t))) := by
    simp [encUser]
  rw [decUser, h]
  simp [decNat_enc, decStrC_enc, decRoles_enc]

/- ## Header-extraction lemmas -/

theorem splitChar_no_sep (c : Char) (l : List Char) (h : c ∉ l) :
    splitChar c l = [l] := by
  induction l with
  | nil => rfl
  | cons a rest ih =>
    have ha : ¬ a = c := fun hc => h (hc ▸ List.mem_cons_self a rest)
    have hr : c ∉ rest := fun hm => h (List.mem_cons_of_mem a hm)
    simp [splitChar, ha, ih hr]

theorem splitChar_append (c : Char) (a b : List Char) (h : c ∉ a) :
    splitChar c (a ++ c :: b) = a :: splitChar c b := by
  induction a with
  | nil => simp [splitChar]
  | cons x xs ih =>
    have hx : ¬ x = c := fun hc => h (hc ▸ List.mem_cons_self x xs)
    have hr : c ∉ xs := fun hm => h (List.mem_cons_of_mem x hm)
    simp [splitChar, hx, ih hr]

theorem readAuthToken_second_word (scheme tk : String)
    (h1 : ' ' ∉ scheme.data) (h2 : ' ' ∉ tk.data) :
    readAuthToken (some (scheme ++ " " ++ tk)) = some tk := by
  have hdata : (scheme ++ " " ++ tk).data = scheme.data ++ ' ' :: tk.data := by
    show (scheme.data ++ [' ']) ++ tk.data = scheme.data ++ ' ' :: tk.data
    simp
  have hne : ¬ (scheme ++ " " ++ tk) = "" := by
    intro he
    have hd : (scheme ++ " " ++ tk).data = [] := by rw [he]
    rw [hdata] at hd
    simp at hd
  rw [readAuthToken, if_neg hne, hdata, splitChar_append _ _ _ h1, splitChar_no_sep _ _ h2]
  rfl

theorem readAuthToken_single_word (s : String) (h : ' ' ∉ s.data) :
    readAuthToken (some s) = none := by
  by_cases hs : s = ""
  · simp [readAuthToken, hs]
  · rw [readAuthToken, if_neg hs, splitChar_no_sep _ _ h]
    rfl

/- ## Structure of a successful authentication -/

theorem setAuthUser_some_elim (st : DBState) (h : Option String) (u : User)
    (hu : setAuthUser st h = some u) :
    ∃ t, readAuthToken h = some t ∧ ¬ t = "" ∧ isLoggedIn st t = true ∧
      jwtVerify t = some u := by
  cases hrt : readAuthToken h with
  | none => simp [setAuthUser, hrt] at hu
  | some t =>
    by_cases ht : t = ""
    · simp [setAuthUser, hrt, ht] at hu
    · by_cases hl : isLoggedIn st t = true
      · exact ⟨t, rfl, ht, hl, by simpa [setAuthUser, hrt, ht, hl] using hu⟩
      · simp [setAuthUser, hrt, ht, hl] at hu

/- ## Session lemmas -/

theorem filter_self_idem {α : Type} (p : α → Bool) (l : List α) :
    (l.filter p).filter p = l.filter p := by
  induction l with
  | nil => rfl
  | cons a rest ih =>
    by_cases hp : p a = true <;> simp [List.filter_cons, hp, ih]

theorem any_filter_ne (l : List (String × Nat)) (t : String) :
    ((l.filter (fun s => s.1 != t)).any (fun s => s.1 == t)) = false := by
  induction l with
  | nil => rfl
  | cons a rest ih =>
    by_cases ha : a.1 = t
    · simp [List.filter_cons, ha, ih]
    · simp [List.filter_cons, ha, ih]

theorem isLoggedIn_logoutUser_self (st : DBState) (t : String) :
    isLoggedIn (logoutUser st t) t = false := by
  simp [isLoggedIn, logoutUser, any_filter_ne]

theorem dbUpdateUser_sessions (st : DBState) (userId : Nat) (name email password : String) :
    (dbUpdateUser st userId name email password).1.sessions = st.sessions := by
  rw [dbUpdateUser]
  cases st.users.find? (fun r => r.user.id == userId) <;> rfl

/- ## Concrete scenario data used by witnesses and counterexamples -/

/-- A concrete franchisee identity. -/
def u0 : User := ⟨4, "f", "fj", [Role.franchisee]⟩

/-- The token issued for `u0`. -/
def tok0 : String := jwtSign u0

/-- A state in which `u0` is registered and `tok0` has an active session. -/
def st0 : DBState :=
  { users := [⟨u0, "pw"⟩], sessions := [(tok0, 4)], franchises := [] }

/-- A concrete franchise administered by `u0`. -/
def fr1 : Franchise := ⟨1, "pizzaPocket", [u0], []⟩

/-- A concrete diner identity, not an admin of `fr1`. -/
def u9 : User := ⟨9, "other", "oj", [Role.diner]⟩

/-- A state containing only the franchise `fr1`. -/
def stF : DBState := { users := [], sessions := [], franchises := [fr1] }

/-- The updated identity produced by updating `u0` with name `nn`, email `ee`. -/
def v9 : User := ⟨4, "nn", "ee", [Role.franchisee]⟩

/-- A concrete franchise administered by `u9`. -/
def fr2 : Franchise := ⟨2, "pizzaPlanet", [u9], []⟩

/-- A state containing the franchises `fr1` and `fr2`. -/
def stG : DBState := { users := [], sessions := [], franchises := [fr1, fr2] }

/- ## Claims -/

/-- C1: a request is authenticated (non-null `req.user`) only if the
extracted token both has an active Session Record (`DB.isLoggedIn`) and
verifies/decodes; and for any token whose Session Record is inactive
(revoked), authentication yields Anonymous regardless of whether the token
still decodes. -/
theorem authenticate_only_with_active_session_and_valid_signature
    (st : DBState) (h : Option String) :
    (∀ u, setAuthUser st h = some u →
      ∃ t, readAuthToken h = some t ∧ isLoggedIn st t = true ∧ jwtVerify t = some u) ∧
    (∀ t, readAuthToken h = some t → isLoggedIn st t = false → setAuthUser st h = none) := by
  constructor
  · intro u hu
    obtain ⟨t, hrt, _, hl, hv⟩ := setAuthUser_some_elim st h u hu
    exact ⟨t, hrt, hl, hv⟩
  · intro t hrt hl
    by_cases ht : t = "" <;> simp [setAuthUser, hrt, ht, hl]

/-- C1 witness: with the session for `tok0` active, authentication on the
header `Bearer tok0` succeeds through both checks; and after revoking the
session, the same header authenticates as Anonymous. -/
theorem authenticate_only_with_active_session_and_valid_signature_witness :
    (∃ t, readAuthToken (some ("Bearer " ++ tok0)) = some t ∧
       isLoggedIn st0 t = true ∧ jwtVerify t = some u0) ∧
    setAuthUser (logoutUser st0 tok0) (some ("Bearer " ++ tok0)) = none :=
  ⟨(authenticate_only_with_active_session_and_valid_signature st0
      (some ("Bearer " ++ tok0))).1 u0 (by decide),
   (authenticate_only_with_active_session_and_valid_signature (logoutUser st0 tok0)
      (some ("Bearer " ++ tok0))).2 tok0 (by decide) (by decide)⟩

/-- C2 (code-bug evidence): the DELETE `/api/franchise/:franchiseId` route
performs the franchise deletion and answers 200 for an Anonymous request
(`req.user = none`), without any authentication or admin/owner check —
although the route's own `docs` entry declares `requiresAuth: true`. The
state `stF` contains franchise `fr1` before the request and no franchise
afterwards. -/
theorem deleteFranchise_route_mutates_without_auth_check :
    deleteFranchiseRoute stF none 1 =
      ({ users := [], sessions := [], franchises := [] }, Resp.msg 200 "franchise deleted") ∧
    stF.franchises = [fr1] := by decide

/-- C3 counterexample: the header `Basic tok0` does not carry the `Bearer`
scheme, yet authentication does not yield Anonymous — the token in second
position is extracted and honored. -/
theorem nonBearer_scheme_token_still_honored :
    setAuthUser st0 (some ("Basic " ++ tok0)) = some u0 := by decide

/-- C3 amended: a missing header, or a header without a second
space-separated component, yields Anonymous and not an error; but the
scheme word is never checked — the second space-separated component is
extracted as the token whatever the first word is, and is then honored
exactly as a Bearer token would be. -/
theorem header_extraction_ignores_scheme_word
    (st : DBState) (s scheme tk : String)
    (hs : ' ' ∉ s.data) (hscheme : ' ' ∉ scheme.data) (htk : ' ' ∉ tk.data) :
    setAuthUser st none = none ∧
    setAuthUser st (some s) = none ∧
    readAuthToken (some (scheme ++ " " ++ tk)) = some tk ∧
    (¬ tk = "" → setAuthUser st (some (scheme ++ " " ++ tk)) =
      (if isLoggedIn st tk then jwtVerify tk else none)) := by
  refine ⟨rfl, ?_, readAuthToken_second_word scheme tk hscheme htk, ?_⟩
  · simp [setAuthUser, readAuthToken_single_word s hs]
  · intro htne
    simp [setAuthUser, readAuthToken_second_word scheme tk hscheme htk, htne]

/-- C3 amended witness: instantiation at the single-word header `garbage`
and the non-Bearer header `Basic tok0`. -/
theorem header_extraction_ignores_scheme_word_witness :
    setAuthUser st0 none = none ∧
    setAuthUser st0 (some "garbage") = none ∧
    readAuthToken (some ("Basic " ++ tok0)) = some tok0 ∧
    (¬ tok0 = "" → setAuthUser st0 (some ("Basic " ++ tok0)) =
      (if isLoggedIn st0 tok0 then jwtVerify tok0 else none)) :=
  header_extraction_ignores_scheme_word st0 "garbage" "Basic" tok0
    (by decide) (by decide) (by decide)

/-- C4 counterexample: with a registered user `u0` (password `pw`), a login
with the wrong password makes `DB.getUser` return null, and the handler
then throws from `jwt.sign(null)` (`Resp.thrown`, a 500-style crash) —
it does not fail with a structured InvalidCredentials error. The state is
unchanged (no Session Record created). -/
theorem login_no_match_throws_not_invalid_credentials :
    loginRoute st0 "fj" "wrong" = (st0, Resp.thrown) := by decide

/-- C4 amended: when the credential lookup returns null, the login handler
throws (from signing the null user) before any Session Record is created,
rather than failing with InvalidCredentials; on a match, a token is issued
and a Session Record recorded. -/
theorem login_no_match_throws_and_records_no_session
    (st : DBState) (email password : String) :
    (getUser st email password = none →
      loginRoute st email password = (st, Resp.thrown)) ∧
    (∀ u, getUser st email password = some u →
      loginRoute st email password =
        (loginUser st u.id (jwtSign u), Resp.userToken 200 u (jwtSign u))) := by
  constructor
  · intro hn
    simp [loginRoute, setAuth, hn]
  · intro u hu
    simp [loginRoute, setAuth, hu]

/-- C4 amended witness: instantiation at a failed and a successful login
against the concrete store `st0`. -/
theorem login_no_match_throws_and_records_no_session_witness :
    loginRoute st0 "fj" "nope" = (st0, Resp.thrown) ∧
    loginRoute st0 "fj" "pw" =
      (loginUser st0 u0.id (jwtSign u0), Resp.userToken 200 u0 (jwtSign u0)) :=
  ⟨(login_no_match_throws_and_records_no_session st0 "fj" "nope").1 (by decide),
   (login_no_match_throws_and_records_no_session st0 "fj" "pw").2 u0 (by decide)⟩

/-- C5: for an authenticated identity and an existing franchise with admin
set `f.admins`, store creation and deletion succeed (and mutate the store)
iff the identity has the Admin role or its id is in the admin set; in all
other cases they answer 403 and leave the state unchanged. -/
theorem store_mutation_admin_or_owner_iff (st : DBState) (u : User) (fid sid : Nat)
    (body : PizzaStore) (f : Franchise) (hf : getFranchise st fid = some f) :
    (u.isRole Role.admin = true ∨ f.admins.any (fun a => a.id == u.id) = true →
      createStoreRoute st (some u) fid body =
        ((createStore st f.id body).1, Resp.storeBody 200 body) ∧
      deleteStoreRoute st (some u) fid sid =
        (deleteStore st fid sid, Resp.msg 200 "store deleted")) ∧
    (u.isRole Role.admin = false → f.admins.any (fun a => a.id == u.id) = false →
      createStoreRoute st (some u) fid body = (st, Resp.msg 403 "unable to create a store") ∧
      deleteStoreRoute st (some u) fid sid = (st, Resp.msg 403 "unable to delete a store")) := by
  constructor
  · intro hperm
    have hcond : (!u.isRole Role.admin && !(f.admins.any (fun a => a.id == u.id))) = false := by
      rcases hperm with hi | hi <;> simp [hi]
    constructor
    · simp [createStoreRoute, hf, hcond, createStore]
    · simp [deleteStoreRoute, hf, hcond]
  · intro h1 h2
    constructor
    · simp [createStoreRoute, hf, h1, h2]
    · simp [deleteStoreRoute, hf, h1, h2]

/-- C5 witness: on franchise `fr1` (admins = `u0`), the owner `u0` may
create and delete stores while the unrelated diner `u9` gets 403 with no
mutation. -/
theorem store_mutation_admin_or_owner_iff_witness :
    (createStoreRoute stF (some u0) 1 ⟨7, "SLC"⟩ =
        ((createStore stF 1 ⟨7, "SLC"⟩).1, Resp.storeBody 200 ⟨7, "SLC"⟩) ∧
     deleteStoreRoute stF (some u0) 1 7 = (deleteStore stF 1 7, Resp.msg 200 "store deleted")) ∧
    (createStoreRoute stF (some u9) 1 ⟨7, "SLC"⟩ = (stF, Resp.msg 403 "unable to create a store") ∧
     deleteStoreRoute stF (some u9) 1 7 = (stF, Resp.msg 403 "unable to delete a store")) :=
  ⟨(store_mutation_admin_or_owner_iff stF u0 1 7 ⟨7, "SLC"⟩ fr1 (by decide)).1
      (Or.inr (by decide)),
   (store_mutation_admin_or_owner_iff stF u9 1 7 ⟨7, "SLC"⟩ fr1 (by decide)).2
      (by decide) (by decide)⟩

/-- C6 counterexample: logging out twice in a row with the same token does
not succeed both times — the first call succeeds (200), the second is
rejected with 401 because the token's Session Record is gone, so the
authentication middleware of the logout endpoint no longer admits it. -/
theorem second_logout_rejected_401 :
    (logoutRoute st0 (some ("Bearer " ++ tok0))).2 = Resp.msg 200 "logout successful" ∧
    (logoutRoute (logoutRoute st0 (some ("Bearer " ++ tok0))).1
        (some ("Bearer " ++ tok0))).2 = Resp.msg 401 "unauthorized" := by decide

/-- C6 amended: the logout operation `clearAuth` is idempotent and never
errors (an absent or already-cleared Session Record is a no-op); but the
logout endpoint requires an authenticated request, so a second logout with
the same token is rejected with 401, still leaving the state unchanged. -/
theorem clearAuth_idempotent_but_route_requires_session (st : DBState) (h : Option String) :
    clearAuth (clearAuth st h) h = clearAuth st h ∧
    (∀ u, setAuthUser st h = some u →
      logoutRoute st h = (clearAuth st h, Resp.msg 200 "logout successful") ∧
      logoutRoute (clearAuth st h) h = (clearAuth st h, Resp.msg 401 "unauthorized")) := by
  constructor
  · cases hrt : readAuthToken h with
    | none => simp [clearAuth, hrt]
    | some t =>
      by_cases ht : t = ""
      · simp [clearAuth, hrt, ht]
      · simp [clearAuth, hrt, ht, logoutUser, filter_self_idem]
  · intro u hu
    obtain ⟨t, hrt, ht, hl, hv⟩ := setAuthUser_some_elim st h u hu
    have hca : clearAuth st h = logoutUser st t := by simp [clearAuth, hrt, ht]
    have hanon : setAuthUser (clearAuth st h) h = none := by
      rw [hca]
      simp [setAuthUser, hrt, ht, isLoggedIn_logoutUser_self]
    constructor
    · simp [logoutRoute, hu]
    · simp [logoutRoute, hanon]

/-- C6 amended witness: instantiation at the concrete state `st0` and the
header `Bearer tok0`. -/
theorem clearAuth_idempotent_but_route_requires_session_witness :
    clearAuth (clearAuth st0 (some ("Bearer " ++ tok0))) (some ("Bearer " ++ tok0)) =
      clearAuth st0 (some ("Bearer " ++ tok0)) ∧
    (logoutRoute st0 (some ("Bearer " ++ tok0)) =
        (clearAuth st0 (some ("Bearer " ++ tok0)), Resp.msg 200 "logout successful") ∧
     logoutRoute (clearAuth st0 (some ("Bearer " ++ tok0))) (some ("Bearer " ++ tok0)) =
        (clearAuth st0 (some ("Bearer " ++ tok0)), Resp.msg 401 "unauthorized")) :=
  ⟨(clearAuth_idempotent_but_route_requires_session st0 (some ("Bearer " ++ tok0))).1,
   (clearAuth_idempotent_but_route_requires_session st0 (some ("Bearer " ++ tok0))).2
      u0 (by decide)⟩

/-- C7: the update-user route authorizes the request iff the target userId
equals the requester's id or the requester has the Admin role: a non-Admin
updating another user's profile gets 403 with no update persisted, while a
self-or-admin request proceeds to the persisted update and re-login. -/
theorem update_user_self_or_admin (st : DBState) (u : User) (userId : Nat)
    (name email password : String) :
    (u.id ≠ userId → u.isRole Role.admin = false →
      updateUserRoute st (some u) userId name email password = (st, Resp.msg 403 "unauthorized")) ∧
    (u.id = userId ∨ u.isRole Role.admin = true →
      updateUserRoute st (some u) userId name email password =
        (match dbUpdateUser st userId name email password with
         | (st1, some v) => (loginUser st1 v.id (jwtSign v), Resp.userToken 200 v (jwtSign v))
         | (st1, none) => (st1, Resp.thrown))) := by
  constructor
  · intro hne hadm
    simp [updateUserRoute, hne, hadm]
  · intro hok
    have hcond : (u.id != userId && !u.isRole Role.admin) = false := by
      rcases hok with hi | hi <;> simp [hi]
    rcases hdb : dbUpdateUser st userId name email password with ⟨st1, updated⟩
    cases updated <;> simp [updateUserRoute, hcond, hdb, setAuth]

/-- C7 witness: the non-Admin `u0` (owner of no relevant resource) is
rejected when updating user 99 and authorized when updating their own
id 4. -/
theorem update_user_self_or_admin_witness :
    updateUserRoute st0 (some u0) 99 "n" "e" "p" = (st0, Resp.msg 403 "unauthorized") ∧
    updateUserRoute st0 (some u0) 4 "n" "e" "p" =
      (match dbUpdateUser st0 4 "n" "e" "p" with
       | (st1, some v) => (loginUser st1 v.id (jwtSign v), Resp.userToken 200 v (jwtSign v))
       | (st1, none) => (st1, Resp.thrown)) :=
  ⟨(update_user_self_or_admin st0 u0 99 "n" "e" "p").1 (by decide) (by decide),
   (update_user_self_or_admin st0 u0 4 "n" "e" "p").2 (Or.inl rfl)⟩

/-- C8: round trip of the Token Codec — decoding the token issued for any
well-formed identity returns exactly that identity, all payload fields
(including the role list) preserved. -/
theorem token_decode_issue_roundtrip (u : User) : jwtVerify (jwtSign u) = some u := by
  have h := decUser_enc u []
  rw [List.append_nil] at h
  simp [jwtSign, jwtVerify, h]

/-- C9: a successful user update performed while an old token's session is
active issues a fresh token with a new Session Record and leaves every
prior Session Record (in particular the old token's) untouched, so the old
and the new token are simultaneously valid afterwards. -/
theorem update_user_keeps_old_session_and_adds_new (st : DBState) (u v : User) (userId : Nat)
    (name email password oldTok : String)
    (hauth : u.id = userId ∨ u.isRole Role.admin = true)
    (hupd : (dbUpdateUser st userId name email password).2 = some v)
    (hold : isLoggedIn st oldTok = true) :
    updateUserRoute st (some u) userId name email password =
      (loginUser (dbUpdateUser st userId name email password).1 v.id (jwtSign v),
       Resp.userToken 200 v (jwtSign v)) ∧
    (updateUserRoute st (some u) userId name email password).1.sessions =
      (jwtSign v, v.id) :: st.sessions ∧
    isLoggedIn (updateUserRoute st (some u) userId name email password).1 oldTok = true ∧
    isLoggedIn (updateUserRoute st (some u) userId name email password).1 (jwtSign v) = true := by
  have hcond : (u.id != userId && !u.isRole Role.admin) = false := by
    rcases hauth with hi | hi <;> simp [hi]
  rcases hdb : dbUpdateUser st userId name email password with ⟨st1, updated⟩
  have hup : updated = some v := by rw [hdb] at hupd; exact hupd
  subst hup
  have hroute : updateUserRoute st (some u) userId name email password =
      (loginUser st1 v.id (jwtSign v), Resp.userToken 200 v (jwtSign v)) := by
    simp [updateUserRoute, hcond, hdb, setAuth]
  have hsess : st1.sessions = st.sessions := by
    have hds := dbUpdateUser_sessions st userId name email password
    rw [hdb] at hds
    exact hds
  refine ⟨hroute, ?_, ?_, ?_⟩
  · rw [hroute]
    simp [loginUser, hsess]
  · rw [hroute]
    simp [isLoggedIn, loginUser, hsess]
    simp [isLoggedIn] at hold
    simp [hold]
  · rw [hroute]
    simp [isLoggedIn, loginUser]

/-- C9 witness: `u0` updates their own record in `st0` while `tok0` is
logged in; afterwards both `tok0` and the freshly issued token have active
sessions. -/
theorem update_user_keeps_old_session_and_adds_new_witness :
    updateUserRoute st0 (some u0) 4 "nn" "ee" "pp" =
      (loginUser (dbUpdateUser st0 4 "nn" "ee" "pp").1 v9.id (jwtSign v9),
       Resp.userToken 200 v9 (jwtSign v9)) ∧
    (updateUserRoute st0 (some u0) 4 "nn" "ee" "pp").1.sessions =
      (jwtSign v9, v9.id) :: st0.sessions ∧
    isLoggedIn (updateUserRoute st0 (some u0) 4 "nn" "ee" "pp").1 tok0 = true ∧
    isLoggedIn (updateUserRoute st0 (some u0) 4 "nn" "ee" "pp").1 (jwtSign v9) = true :=
  update_user_keeps_old_session_and_adds_new st0 u0 v9 4 "nn" "ee" "pp" tok0
    (Or.inl rfl) (by decide) (by decide)

/-- C10: an authenticated request to list another user's franchises by a
requester who is neither that user nor an Admin answers 200 with the empty
list — no Forbidden error — and, for every store state, performs no
franchise lookup (the response is the empty list whatever the stored
franchises are, and the state is unchanged). -/
theorem list_franchises_other_user_returns_empty (st : DBState) (u : User) (userId : Nat)
    (hneq : u.id ≠ userId) (hadm : u.isRole Role.admin = false) :
    listUserFranchisesRoute st (some u) userId = (st, Resp.franchiseList 200 []) := by
  simp [listUserFranchisesRoute, hneq, hadm]

/-- C10 witness: the non-Admin `u0` listing the franchises of user 9 in a
state where user 9 does administer a franchise (`fr2`) still receives the
empty list. -/
theorem list_franchises_other_user_returns_empty_witness :
    listUserFranchisesRoute stG (some u0) 9 = (stG, Resp.franchiseList 200 []) :=
  list_franchises_other_user_returns_empty stG u0 9 (by decide) (by decide)
